import Mathlib

/-!
Shallow embedding of the Riskly pre-trade risk gate
(src/src/riskly_service.rs, src/src/riskly_error.rs, src/src/config.rs,
src/src/main.rs).

Conventions of the embedding:
* Rust `f64` quantities, prices and limits are modelled as `ℚ`; every
  operation the code performs on them (`+`, `-`, unary `-`, `abs`,
  comparisons) is exact on the values of every claim.
* Rust `HashMap<String, f64>` is modelled as an association list
  `List (String × ℚ)` with first-match lookup and replace-on-insert,
  which matches `HashMap::get` / `HashMap::insert` / `get_mut`.
* The proto-generated types `Trade`, `RisklyState` and `OpenOrder`
  (from riskly-protos/riskly.proto, not under src/) are reconstructed
  from their uses: `RisklyService::new` builds `RisklyState` with exactly
  the fields `current_positions`, `open_orders`, `daily_volume`, and
  `evaluate_trade` reads `trade.asset`, `trade.quantity`, `trade.price`,
  `trade.side` (an integer matched against 0 and 1).
* The error variants carry the values the Rust code interpolates into
  their message strings (`format!`), instead of the rendered `String`;
  `DisallowedAsset` carries the asset string exactly as in the code.
  `InvalidTradeSide` is constructed by `riskly_service.rs` (lines 74,
  133, 150); `ExceedsMaxAllocation` is declared in `riskly_error.rs`
  but never constructed anywhere.
* The timing instrumentation (`Instant::now`, `println!`) has no
  effect on results or state and is not modelled.
-/

/-- Lookup in an association list, mirroring `HashMap::get` (first match). -/
def lookupA (m : List (String × ℚ)) (k : String) : Option ℚ :=
  match m with
  | [] => none
  | (k0, v0) :: rest => if k0 = k then some v0 else lookupA rest k

/-- Insert-or-replace in an association list, mirroring `HashMap::insert`
and in-place update through `get_mut`. -/
def insertA (m : List (String × ℚ)) (k : String) (v : ℚ) : List (String × ℚ) :=
  match m with
  | [] => [(k, v)]
  | (k0, v0) :: rest => if k0 = k then (k0, v) :: rest else (k0, v0) :: insertA rest k v

/-- The trade input, from riskly-protos (proto message used by
`evaluate_trade` and `add_trade`); `side` is the proto integer,
0 = Buy, 1 = Sell. -/
structure Trade where
  asset : String
  quantity : ℚ
  price : ℚ
  side : Int
deriving DecidableEq, Repr

/-- One open order, from riskly-protos; carried by the state but never
read or written by the compiled service code. -/
structure OpenOrder where
  id : String
  asset : String
  quantity : ℚ
  side : Int
  limit_price : ℚ
  status : String
deriving DecidableEq, Repr

/-- The mutable trading state. `RisklyService::new` (riskly_service.rs
lines 21-25) constructs it with exactly these three fields, so the
generated struct has no `portfolio_value_usd`, no PnL fields and no
trading-enabled field. -/
structure RisklyState where
  current_positions : List (String × ℚ)
  open_orders : List OpenOrder
  daily_volume : List (String × ℚ)
deriving DecidableEq, Repr

/-- The configuration, from config.rs `RisklyConfig`. -/
structure RisklyConfig where
  max_position_per_asset : List (String × ℚ)
  max_trade_size : List (String × ℚ)
  max_daily_volume : List (String × ℚ)
  max_allocation_per_asset_pct : List (String × ℚ)
  allowed_assets : List String
  max_slippage_pct : ℚ
  trading_enabled : Bool
  listen_address : String
deriving DecidableEq, Repr

/-- The error taxonomy. The five variants of riskly_error.rs plus
`InvalidTradeSide`, which riskly_service.rs constructs; each variant
carries the values the code formats into its message. -/
inductive RisklyError where
  | DisallowedAsset (asset : String)
  | TradeTooLarge (quantity max_size : ℚ)
  | ExceedsMaxPosition (new_position max_position : ℚ) (asset : String)
  | ExceedsDailyVolume (projected_volume max_volume : ℚ) (asset : String)
  | ExceedsMaxAllocation (allocation_pct max : ℚ) (asset : String)
  | InvalidTradeSide (side : Int)
deriving DecidableEq, Repr

instance {ε α : Type} [DecidableEq ε] [DecidableEq α] : DecidableEq (Except ε α) := by
  intro a b
  cases a <;> cases b
  case error.error e1 e2 =>
    exact decidable_of_iff (e1 = e2) (by constructor <;> (intro h; first | exact congrArg _ h | injection h))
  case ok.ok a1 a2 =>
    exact decidable_of_iff (a1 = a2) (by constructor <;> (intro h; first | exact congrArg _ h | injection h))
  case error.ok e1 a2 => exact Decidable.isFalse (by intro h; injection h)
  case ok.error a1 e2 => exact Decidable.isFalse (by intro h; injection h)

/-- Check 1 of `evaluate_trade` (riskly_service.rs lines 48-52):
whitelist. -/
def check_allowed (config : RisklyConfig) (trade : Trade) : Option RisklyError :=
  if trade.asset ∈ config.allowed_assets then none
  else some (RisklyError.DisallowedAsset trade.asset)

/-- Check 2 of `evaluate_trade` (lines 55-63): per-order size cap. -/
def check_size (config : RisklyConfig) (trade : Trade) : Option RisklyError :=
  match lookupA config.max_trade_size trade.asset with
  | some max_size =>
      if trade.quantity > max_size then some (RisklyError.TradeTooLarge trade.quantity max_size)
      else none
  | none => none

/-- Side decoding inside check 3 (lines 70-79): Buy = 0 adds the
quantity, Sell = 1 subtracts it, anything else is `InvalidTradeSide`. -/
def decode_side (current_position quantity : ℚ) (side : Int) : Except RisklyError ℚ :=
  if side = 0 then Except.ok (current_position + quantity)
  else if side = 1 then Except.ok (current_position - quantity)
  else Except.error (RisklyError.InvalidTradeSide side)

/-- Projected-position cap of check 3 (lines 81-87). -/
def check_position (config : RisklyConfig) (asset : String) (new_position : ℚ) :
    Option RisklyError :=
  match lookupA config.max_position_per_asset asset with
  | some max_position =>
      if |new_position| > max_position then
        some (RisklyError.ExceedsMaxPosition new_position max_position asset)
      else none
  | none => none

/-- Check 4 of `evaluate_trade` (lines 90-103): projected daily volume. -/
def check_volume (config : RisklyConfig) (asset : String) (projected_volume : ℚ) :
    Option RisklyError :=
  match lookupA config.max_daily_volume asset with
  | some max_volume =>
      if projected_volume > max_volume then
        some (RisklyError.ExceedsDailyVolume projected_volume max_volume asset)
      else none
  | none => none

/-- `RisklyService::evaluate_trade` (riskly_service.rs lines 37-114):
the checks run in source order with early return on the first failure;
the state is only read. -/
def evaluate_trade (config : RisklyConfig) (state : RisklyState) (trade : Trade) :
    Except RisklyError Unit :=
  match check_allowed config trade with
  | some e => Except.error e
  | none =>
  match check_size config trade with
  | some e => Except.error e
  | none =>
  match decode_side ((lookupA state.current_positions trade.asset).getD 0) trade.quantity
      trade.side with
  | Except.error e => Except.error e
  | Except.ok new_position =>
  match check_position config trade.asset new_position with
  | some e => Except.error e
  | none =>
  match check_volume config trade.asset
      ((lookupA state.daily_volume trade.asset).getD 0 + trade.quantity) with
  | some e => Except.error e
  | none => Except.ok ()

/-- The mutation section of `RisklyService::add_trade` (riskly_service.rs
lines 123-172): everything the code does after re-acquiring the state
lock. The branch on whether a position already exists mirrors the
`get_mut` / `insert` split of the code. -/
def add_trade_mutate (state : RisklyState) (trade : Trade) : Except RisklyError RisklyState :=
  match
    (match lookupA state.current_positions trade.asset with
     | some quantity0 =>
        if trade.side = 0 then
          Except.ok (insertA state.current_positions trade.asset (quantity0 + trade.quantity))
        else if trade.side = 1 then
          Except.ok (insertA state.current_positions trade.asset (quantity0 - trade.quantity))
        else Except.error (RisklyError.InvalidTradeSide trade.side)
     | none =>
        if trade.side = 0 then
          Except.ok (insertA state.current_positions trade.asset trade.quantity)
        else if trade.side = 1 then
          Except.ok (insertA state.current_positions trade.asset (-trade.quantity))
        else Except.error (RisklyError.InvalidTradeSide trade.side)) with
  | Except.error e => Except.error e
  | Except.ok positions =>
    let current_volume := (lookupA state.daily_volume trade.asset).getD 0
    Except.ok
      { state with
        current_positions := positions,
        daily_volume :=
          insertA state.daily_volume trade.asset (current_volume + trade.quantity) }

/-- `RisklyService::add_trade` (riskly_service.rs lines 116-173) as a
sequential state transition: evaluate first (under one lock acquisition,
released when `evaluate_trade` returns), then mutate (under a second
acquisition). Run sequentially the mutation sees the same state the
evaluation saw. -/
def add_trade (config : RisklyConfig) (state : RisklyState) (trade : Trade) :
    Except RisklyError RisklyState :=
  match evaluate_trade config state trade with
  | Except.error e => Except.error e
  | Except.ok _ => add_trade_mutate state trade

/-- `evaluate_trade` as a state transformer: the Rust function locks the
state, reads `current_positions` and `daily_volume`, and returns without
writing any field, so the post-state is the pre-state. -/
def evaluate_trade_step (config : RisklyConfig) (state : RisklyState) (trade : Trade) :
    Except RisklyError Unit × RisklyState :=
  (evaluate_trade config state trade, state)

/-- Outcome of a facade handler whose body is the `unimplemented!()`
macro, which panics instead of returning. -/
inductive Panic where
  | unimplemented
deriving DecidableEq, Repr

/-- `Riskly::reset_daily_limits` (main.rs lines 107-112): the handler
body is `unimplemented!()`; it reads and writes nothing and panics. -/
def reset_daily_limits (_state : RisklyState) : Except Panic RisklyState :=
  Except.error Panic.unimplemented

/-!
Interleaving model for `add_trade`. The Rust `add_trade` acquires the
state mutex twice: once inside `evaluate_trade` (released when that
function returns) and once for the mutation section (lines 116-123).
Each acquisition is one atomic step against the shared state; between
the two steps of one call, steps of other calls may run. A thread is a
pending `add_trade` call, and a schedule chooses which thread performs
its next atomic step.
-/

/-- Progress of one pending `add_trade` call: before its `evaluate_trade`
critical section, between the two critical sections, or finished with
the call's result. -/
inductive Phase where
  | toEvaluate
  | toMutate
  | finished (result : Except RisklyError Unit)
deriving DecidableEq, Repr

/-- One atomic step of a pending `add_trade` call: its `evaluate_trade`
critical section (read-only; on failure the call returns the error), or
its mutation critical section. -/
def threadStep (config : RisklyConfig) (trade : Trade) (state : RisklyState) (ph : Phase) :
    RisklyState × Phase :=
  match ph with
  | Phase.toEvaluate =>
    match evaluate_trade config state trade with
    | Except.ok _ => (state, Phase.toMutate)
    | Except.error e => (state, Phase.finished (Except.error e))
  | Phase.toMutate =>
    match add_trade_mutate state trade with
    | Except.ok state2 => (state2, Phase.finished (Except.ok ()))
    | Except.error e => (state, Phase.finished (Except.error e))
  | Phase.finished r => (state, Phase.finished r)

/-- Shared state plus the progress of two concurrent `add_trade` calls. -/
structure Conc2 where
  st : RisklyState
  ph1 : Phase
  ph2 : Phase
deriving DecidableEq, Repr

/-- One scheduler step: `false` lets call 1 take its next atomic step,
`true` lets call 2. -/
def conc2Step (config : RisklyConfig) (t1 t2 : Trade) (c : Conc2) (who : Bool) : Conc2 :=
  if who then
    let sp := threadStep config t2 c.st c.ph2
    { c with st := sp.1, ph2 := sp.2 }
  else
    let sp := threadStep config t1 c.st c.ph1
    { c with st := sp.1, ph1 := sp.2 }

/-- Run two concurrent `add_trade` calls under a schedule. -/
def runConc2 (config : RisklyConfig) (t1 t2 : Trade) (sched : List Bool) (c : Conc2) : Conc2 :=
  sched.foldl (conc2Step config t1 t2) c

/-- The projected position of riskly_service.rs lines 68-79:
`current_position + quantity` for side 0 (Buy), `current_position -
quantity` for side 1 (Sell); an absent position key reads as 0. -/
def new_position (state : RisklyState) (trade : Trade) : ℚ :=
  (lookupA state.current_positions trade.asset).getD 0 +
    (if trade.side = 0 then trade.quantity else -trade.quantity)

/-- Modelled from the spec: the portfolio-allocation property of spec
section 4.1 step 6 as the claim states it. The compiled `RisklyState`
has no `portfolio_value_usd` field (`RisklyService::new` builds the
state from exactly three fields), so the portfolio value appears here
as an explicit parameter `pv`, following the words of the spec:
`asset_value = new_position * trade.price`, `allocation_pct =
asset_value / portfolio_value_usd`, and a trade that passes checks 1-5
(in the compiled code: all of `evaluate_trade`) with `allocation_pct >
max` must fail with `ExceedsMaxAllocation`. -/
def allocation_claim : Prop :=
  ∀ (config : RisklyConfig) (state : RisklyState) (trade : Trade) (pv max_pct : ℚ),
    evaluate_trade config state trade = Except.ok () →
    0 < pv →
    lookupA config.max_allocation_per_asset_pct trade.asset = some max_pct →
    new_position state trade * trade.price / pv > max_pct →
    evaluate_trade config state trade =
      Except.error
        (RisklyError.ExceedsMaxAllocation (new_position state trade * trade.price / pv)
          max_pct trade.asset)

/-! Association-list lemmas used by the frame and round-trip proofs. -/

theorem lookupA_insertA_self (m : List (String × ℚ)) (k : String) (v : ℚ) :
    lookupA (insertA m k v) k = some v := by
  induction m with
  | nil => simp [insertA, lookupA]
  | cons hd tl ih =>
    obtain ⟨k0, v0⟩ := hd
    by_cases h : k0 = k
    · simp [insertA, lookupA, h]
    · simp [insertA, lookupA, h, ih]

theorem lookupA_insertA_ne (m : List (String × ℚ)) (k k2 : String) (v : ℚ) (h : k2 ≠ k) :
    lookupA (insertA m k v) k2 = lookupA m k2 := by
  have hks : ¬ k = k2 := fun hh => h hh.symm
  induction m with
  | nil => simp [insertA, lookupA, hks]
  | cons hd tl ih =>
    obtain ⟨k0, v0⟩ := hd
    by_cases h0 : k0 = k
    · subst h0
      simp [insertA, lookupA, hks]
    · by_cases h2 : k0 = k2
      · simp [insertA, lookupA, h0, h2, h]
      · simp [insertA, lookupA, h0, h2, ih]

/-! Shape lemmas: which error each check can produce, and what a
successful run implies. -/

theorem check_allowed_shape (config : RisklyConfig) (trade : Trade) (e : RisklyError)
    (h : check_allowed config trade = some e) : e = RisklyError.DisallowedAsset trade.asset := by
  unfold check_allowed at h
  split at h
  · exact absurd h (by simp)
  · exact (Option.some.inj h).symm

theorem check_size_shape (config : RisklyConfig) (trade : Trade) (e : RisklyError)
    (h : check_size config trade = some e) : ∃ q m, e = RisklyError.TradeTooLarge q m := by
  unfold check_size at h
  split at h
  · split at h
    · exact ⟨_, _, (Option.some.inj h).symm⟩
    · exact absurd h (by simp)
  · exact absurd h (by simp)

theorem decode_side_error_shape (p q : ℚ) (s : Int) (e : RisklyError)
    (h : decode_side p q s = Except.error e) : e = RisklyError.InvalidTradeSide s := by
  unfold decode_side at h
  split at h
  · exact absurd h (by simp)
  · split at h
    · exact absurd h (by simp)
    · injection h with h
      exact h.symm

theorem decode_side_ok_side (p q : ℚ) (s : Int) (np : ℚ)
    (h : decode_side p q s = Except.ok np) : s = 0 ∨ s = 1 := by
  unfold decode_side at h
  split at h
  · next h0 => exact Or.inl h0
  · next h0 =>
    split at h
    · next h1 => exact Or.inr h1
    · exact absurd h (by simp)

theorem check_position_shape (config : RisklyConfig) (a : String) (np : ℚ) (e : RisklyError)
    (h : check_position config a np = some e) :
    ∃ x m, e = RisklyError.ExceedsMaxPosition x m a := by
  unfold check_position at h
  split at h
  · split at h
    · exact ⟨_, _, (Option.some.inj h).symm⟩
    · exact absurd h (by simp)
  · exact absurd h (by simp)

theorem check_volume_shape (config : RisklyConfig) (a : String) (pv : ℚ) (e : RisklyError)
    (h : check_volume config a pv = some e) :
    ∃ x m, e = RisklyError.ExceedsDailyVolume x m a := by
  unfold check_volume at h
  split at h
  · split at h
    · exact ⟨_, _, (Option.some.inj h).symm⟩
    · exact absurd h (by simp)
  · exact absurd h (by simp)

theorem evaluate_trade_error_shape (config : RisklyConfig) (state : RisklyState) (trade : Trade)
    (e : RisklyError) (h : evaluate_trade config state trade = Except.error e) :
    e = RisklyError.DisallowedAsset trade.asset ∨
    (∃ q m, e = RisklyError.TradeTooLarge q m) ∨
    e = RisklyError.InvalidTradeSide trade.side ∨
    (∃ x m, e = RisklyError.ExceedsMaxPosition x m trade.asset) ∨
    (∃ x m, e = RisklyError.ExceedsDailyVolume x m trade.asset) := by
  unfold evaluate_trade at h
  split at h
  · next e0 heq =>
    injection h with h
    subst h
    exact Or.inl (check_allowed_shape _ _ _ heq)
  · split at h
    · next e0 heq =>
      injection h with h
      subst h
      exact Or.inr (Or.inl (check_size_shape _ _ _ heq))
    · split at h
      · next e0 heq =>
        injection h with h
        subst h
        exact Or.inr (Or.inr (Or.inl (decode_side_error_shape _ _ _ _ heq)))
      · split at h
        · next e0 heq =>
          injection h with h
          subst h
          exact Or.inr (Or.inr (Or.inr (Or.inl (check_position_shape _ _ _ _ heq))))
        · split at h
          · next e0 heq =>
            injection h with h
            subst h
            exact Or.inr (Or.inr (Or.inr (Or.inr (check_volume_shape _ _ _ _ heq))))
          · exact absurd h (by simp)

theorem evaluate_trade_ok_side (config : RisklyConfig) (state : RisklyState) (trade : Trade)
    (h : evaluate_trade config state trade = Except.ok ()) :
    trade.side = 0 ∨ trade.side = 1 := by
  unfold evaluate_trade at h
  split at h
  · exact absurd h (by simp)
  · split at h
    · exact absurd h (by simp)
    · split at h
      · exact absurd h (by simp)
      · next np heq =>
        exact decode_side_ok_side _ _ _ _ heq

theorem add_trade_ok_inv (config : RisklyConfig) (state state2 : RisklyState) (trade : Trade)
    (h : add_trade config state trade = Except.ok state2) :
    evaluate_trade config state trade = Except.ok () ∧
    add_trade_mutate state trade = Except.ok state2 := by
  unfold add_trade at h
  split at h
  · exact absurd h (by simp)
  · next u heq =>
    cases u
    exact ⟨heq, h⟩

/-- Claim C1: the claim says a false `trading_enabled` makes `evaluate`
fail with TradingDisabled before any other check and makes `apply` admit
nothing. The compiled `evaluate_trade` never reads `trading_enabled`
(its result is invariant under the flag) and, with the flag off, a
plain trade on a whitelisted asset is admitted by both `evaluate_trade`
and `add_trade`. -/
theorem C1_no_trading_gate :
    (∀ (config : RisklyConfig) (state : RisklyState) (trade : Trade) (b : Bool),
      evaluate_trade { config with trading_enabled := b } state trade =
        evaluate_trade config state trade) ∧
    evaluate_trade ⟨[], [], [], [], ["BTC"], 1/2, false, "a"⟩ ⟨[], [], []⟩ ⟨"BTC", 1, 100, 0⟩ =
      Except.ok () ∧
    add_trade ⟨[], [], [], [], ["BTC"], 1/2, false, "a"⟩ ⟨[], [], []⟩ ⟨"BTC", 1, 100, 0⟩ =
      Except.ok ⟨[("BTC", 1)], [], [("BTC", 1)]⟩ := by
  refine ⟨fun config state trade b => rfl, ?_, ?_⟩
  · norm_num +decide [evaluate_trade, check_allowed, check_size, decode_side, check_position,
      check_volume, lookupA]
  · norm_num +decide [add_trade, add_trade_mutate, evaluate_trade, check_allowed, check_size,
      decode_side, check_position, check_volume, lookupA, insertA]

/-- Claim C5: a trade whose asset is not whitelisted is rejected by
`evaluate_trade` and by `add_trade` with `DisallowedAsset` carrying the
asset; `add_trade` returns the error without producing any new state,
so no position or daily-volume entry is created for that asset. -/
theorem C5_whitelist (config : RisklyConfig) (state : RisklyState) (trade : Trade)
    (h : trade.asset ∉ config.allowed_assets) :
    evaluate_trade config state trade = Except.error (RisklyError.DisallowedAsset trade.asset) ∧
    add_trade config state trade = Except.error (RisklyError.DisallowedAsset trade.asset) := by
  have he : evaluate_trade config state trade =
      Except.error (RisklyError.DisallowedAsset trade.asset) := by
    unfold evaluate_trade check_allowed
    simp [h]
  refine ⟨he, ?_⟩
  unfold add_trade
  rw [he]

/-- Witness for C5, the scenario of the claim: allowed_assets = [BTC],
evaluate(Sell, ETH, 1.0) fails with DisallowedAsset("ETH"), and so does
add_trade. -/
theorem C5_whitelist_witness :
    ("ETH" : String) ∉ (["BTC"] : List String) ∧
    (evaluate_trade ⟨[], [], [], [], ["BTC"], 1/2, true, "a"⟩ ⟨[], [], []⟩ ⟨"ETH", 1, 10, 1⟩ =
        Except.error (RisklyError.DisallowedAsset "ETH") ∧
      add_trade ⟨[], [], [], [], ["BTC"], 1/2, true, "a"⟩ ⟨[], [], []⟩ ⟨"ETH", 1, 10, 1⟩ =
        Except.error (RisklyError.DisallowedAsset "ETH")) :=
  ⟨by decide, C5_whitelist _ _ _ (by decide)⟩

/-- Claim C7: `evaluate_trade` is a pure admission check: as a state
transformer it returns the state it was given, for success and failure
alike, and a second evaluation of the same trade from the resulting
state returns the same result. -/
theorem C7_evaluate_pure (config : RisklyConfig) (state : RisklyState) (trade : Trade) :
    (evaluate_trade_step config state trade).2 = state ∧
    (evaluate_trade_step config (evaluate_trade_step config state trade).2 trade).1 =
      (evaluate_trade_step config state trade).1 :=
  ⟨rfl, rfl⟩

/-- Claim C8: the claim says reset_daily_limits always succeeds and
clears daily_volume. The compiled handler (main.rs lines 107-112) is
the `unimplemented!()` macro: it panics, never succeeds, and clears
nothing. -/
theorem C8_reset_unimplemented (state : RisklyState) :
    reset_daily_limits state = Except.error Panic.unimplemented ∧
    ∀ state2 : RisklyState, reset_daily_limits state ≠ Except.ok state2 := by
  refine ⟨rfl, fun state2 h => ?_⟩
  simp [reset_daily_limits] at h

/-- For a valid side, the mutation section of `add_trade` always
succeeds and writes exactly the projected position and the accumulated
daily volume of the trade's asset. -/
theorem add_trade_mutate_valid (state : RisklyState) (trade : Trade)
    (hside : trade.side = 0 ∨ trade.side = 1) :
    add_trade_mutate state trade =
      Except.ok
        { current_positions :=
            insertA state.current_positions trade.asset
              ((lookupA state.current_positions trade.asset).getD 0 +
                (if trade.side = 0 then trade.quantity else -trade.quantity)),
          open_orders := state.open_orders,
          daily_volume :=
            insertA state.daily_volume trade.asset
              ((lookupA state.daily_volume trade.asset).getD 0 + trade.quantity) } := by
  unfold add_trade_mutate
  rcases hside with h0 | h1
  · cases hlp : lookupA state.current_positions trade.asset with
    | some q0 => simp +decide [h0, hlp]
    | none => simp +decide [h0, hlp]
  · cases hlp : lookupA state.current_positions trade.asset with
    | some q0 => simp +decide [h1, hlp, sub_eq_add_neg]
    | none => simp +decide [h1, hlp, sub_eq_add_neg]

/-- Claim C4: for a trade on an allowed asset with a valid side that
passes the size check, when `max_position_per_asset` is configured for
the asset, `evaluate_trade` fails with `ExceedsMaxPosition` (carrying
the projected position, the max and the asset) exactly when the
absolute projected position exceeds the max. -/
theorem C4_position_check (config : RisklyConfig) (state : RisklyState) (trade : Trade) (m : ℚ)
    (hallow : trade.asset ∈ config.allowed_assets)
    (hside : trade.side = 0 ∨ trade.side = 1)
    (hsize : ∀ ms, lookupA config.max_trade_size trade.asset = some ms → ¬ trade.quantity > ms)
    (hmax : lookupA config.max_position_per_asset trade.asset = some m) :
    (evaluate_trade config state trade =
      Except.error
        (RisklyError.ExceedsMaxPosition (new_position state trade) m trade.asset)) ↔
    |new_position state trade| > m := by
  have hca : check_allowed config trade = none := by
    unfold check_allowed
    simp [hallow]
  have hcs : check_size config trade = none := by
    unfold check_size
    cases hls : lookupA config.max_trade_size trade.asset with
    | none => rfl
    | some ms => simp [hsize ms hls]
  have hds : decode_side ((lookupA state.current_positions trade.asset).getD 0) trade.quantity
      trade.side = Except.ok (new_position state trade) := by
    unfold decode_side new_position
    rcases hside with h0 | h1
    · simp [h0]
    · rw [h1]
      norm_num [sub_eq_add_neg]
  unfold evaluate_trade
  simp only [hca, hcs, hds]
  unfold check_position
  simp only [hmax]
  by_cases hgt : |new_position state trade| > m
  · simp [hgt]
  · simp only [if_neg hgt]
    constructor
    · intro hc
      cases hcv : check_volume config trade.asset
          ((lookupA state.daily_volume trade.asset).getD 0 + trade.quantity) with
      | none =>
        rw [hcv] at hc
        simp at hc
      | some e =>
        rw [hcv] at hc
        obtain ⟨x, y, hxy⟩ := check_volume_shape _ _ _ _ hcv
        subst hxy
        simp at hc
    · intro hgt2
      exact absurd hgt2 hgt

/-- Witness for C4, the scenario of the claim: max_position BTC = 2.0,
apply(Buy, BTC, 1.5) succeeds leaving position 1.5, then a Buy of 1.0
projects 2.5 > 2.0 and both evaluate and apply fail with
ExceedsMaxPosition while the position stays 1.5. -/
theorem C4_position_check_witness :
    add_trade ⟨[("BTC", 2)], [], [], [], ["BTC"], 1/2, true, "a"⟩ ⟨[], [], []⟩
        ⟨"BTC", 3/2, 10, 0⟩ = Except.ok ⟨[("BTC", 3/2)], [], [("BTC", 3/2)]⟩ ∧
    (|new_position ⟨[("BTC", 3/2)], [], [("BTC", 3/2)]⟩ ⟨"BTC", 1, 10, 0⟩| > 2 ∧
      evaluate_trade ⟨[("BTC", 2)], [], [], [], ["BTC"], 1/2, true, "a"⟩
          ⟨[("BTC", 3/2)], [], [("BTC", 3/2)]⟩ ⟨"BTC", 1, 10, 0⟩ =
        Except.error (RisklyError.ExceedsMaxPosition (5/2) 2 "BTC")) ∧
    add_trade ⟨[("BTC", 2)], [], [], [], ["BTC"], 1/2, true, "a"⟩
        ⟨[("BTC", 3/2)], [], [("BTC", 3/2)]⟩ ⟨"BTC", 1, 10, 0⟩ =
      Except.error (RisklyError.ExceedsMaxPosition (5/2) 2 "BTC") := by
  have hnp : new_position ⟨[("BTC", 3/2)], [], [("BTC", 3/2)]⟩ ⟨"BTC", 1, 10, 0⟩ = 5/2 := by
    norm_num +decide [new_position, lookupA]
  have hgt : |new_position ⟨[("BTC", 3/2)], [], [("BTC", 3/2)]⟩ ⟨"BTC", 1, 10, 0⟩| > 2 := by
    rw [hnp]
    norm_num [abs, max_def]
  have heval := (C4_position_check ⟨[("BTC", 2)], [], [], [], ["BTC"], 1/2, true, "a"⟩
      ⟨[("BTC", 3/2)], [], [("BTC", 3/2)]⟩ ⟨"BTC", 1, 10, 0⟩ 2
      (by decide) (Or.inl rfl)
      (by intro ms hm; simp [lookupA] at hm)
      (by simp [lookupA])).mpr hgt
  rw [hnp] at heval
  refine ⟨?_, ⟨hgt, heval⟩, ?_⟩
  · norm_num +decide [add_trade, add_trade_mutate, evaluate_trade, check_allowed, check_size,
      decode_side, check_position, check_volume, lookupA, insertA, abs, max_def]
  · unfold add_trade
    simp only [heval]

/-- Counterexample for C9 as stated: it is not true that every trade
with a side other than 0 or 1 fails with `InvalidTradeSide`. The side
is only decoded after the whitelist and size checks, so a trade with
side 7 on a disallowed asset fails with `DisallowedAsset` instead. -/
theorem C9_counterexample :
    ¬ (∀ (config : RisklyConfig) (state : RisklyState) (trade : Trade),
        trade.side ≠ 0 → trade.side ≠ 1 →
        evaluate_trade config state trade =
          Except.error (RisklyError.InvalidTradeSide trade.side)) := by
  intro hclaim
  have h := hclaim ⟨[], [], [], [], ["BTC"], 1/2, true, "a"⟩ ⟨[], [], []⟩ ⟨"ETH", 1, 10, 7⟩
      (by decide) (by decide)
  have h2 : evaluate_trade ⟨[], [], [], [], ["BTC"], 1/2, true, "a"⟩ ⟨[], [], []⟩
      ⟨"ETH", 1, 10, 7⟩ = Except.error (RisklyError.DisallowedAsset "ETH") := by
    norm_num +decide [evaluate_trade, check_allowed]
  rw [h2] at h
  simp at h

/-- Claim C9 (amended): for a trade whose side is neither 0 nor 1, if
the asset is allowed and the size check passes then `evaluate_trade`
fails with `InvalidTradeSide` (if an earlier check fails, its error is
returned instead); in all cases `add_trade` admits no such trade. -/
theorem C9_invalid_side (config : RisklyConfig) (state : RisklyState) (trade : Trade)
    (hside0 : trade.side ≠ 0) (hside1 : trade.side ≠ 1) :
    (trade.asset ∈ config.allowed_assets →
      (∀ ms, lookupA config.max_trade_size trade.asset = some ms → ¬ trade.quantity > ms) →
      evaluate_trade config state trade =
        Except.error (RisklyError.InvalidTradeSide trade.side)) ∧
    ∀ state2 : RisklyState, add_trade config state trade ≠ Except.ok state2 := by
  constructor
  · intro hallow hsize
    have hca : check_allowed config trade = none := by
      unfold check_allowed
      simp [hallow]
    have hcs : check_size config trade = none := by
      unfold check_size
      cases hls : lookupA config.max_trade_size trade.asset with
      | none => rfl
      | some ms => simp [hsize ms hls]
    have hds : decode_side ((lookupA state.current_positions trade.asset).getD 0)
        trade.quantity trade.side =
        Except.error (RisklyError.InvalidTradeSide trade.side) := by
      unfold decode_side
      simp [hside0, hside1]
    unfold evaluate_trade
    simp only [hca, hcs, hds]
  · intro state2 h
    obtain ⟨hok, _⟩ := add_trade_ok_inv _ _ _ _ h
    rcases evaluate_trade_ok_side _ _ _ hok with h0 | h1
    · exact hside0 h0
    · exact hside1 h1

/-- Witness for C9: side 7 on the allowed asset BTC with no size limit
fails with InvalidTradeSide(7), and add_trade never admits it. -/
theorem C9_invalid_side_witness :
    ((7 : Int) ≠ 0 ∧ (7 : Int) ≠ 1) ∧
    evaluate_trade ⟨[], [], [], [], ["BTC"], 1/2, true, "a"⟩ ⟨[], [], []⟩ ⟨"BTC", 1, 10, 7⟩ =
      Except.error (RisklyError.InvalidTradeSide 7) ∧
    ∀ state2 : RisklyState,
      add_trade ⟨[], [], [], [], ["BTC"], 1/2, true, "a"⟩ ⟨[], [], []⟩ ⟨"BTC", 1, 10, 7⟩ ≠
        Except.ok state2 := by
  have h := C9_invalid_side ⟨[], [], [], [], ["BTC"], 1/2, true, "a"⟩ ⟨[], [], []⟩
      ⟨"BTC", 1, 10, 7⟩ (by decide) (by decide)
  exact ⟨⟨by decide, by decide⟩,
    h.1 (by decide) (by intro ms hm; simp [lookupA] at hm), h.2⟩

/-- Claim C10: no positivity validation exists. For a trade with a
valid side on a whitelisted asset with no configured limits,
`evaluate_trade` succeeds whatever the quantity and price (including
non-positive ones), `add_trade` admits the trade, and the daily volume
moves by the signed quantity, so a negative quantity strictly decreases
it. -/
theorem C10_no_positivity_validation (config : RisklyConfig) (state : RisklyState) (trade : Trade)
    (hside : trade.side = 0 ∨ trade.side = 1)
    (hallow : trade.asset ∈ config.allowed_assets)
    (hs1 : lookupA config.max_trade_size trade.asset = none)
    (hs2 : lookupA config.max_position_per_asset trade.asset = none)
    (hs3 : lookupA config.max_daily_volume trade.asset = none) :
    evaluate_trade config state trade = Except.ok () ∧
    ∃ state2 : RisklyState, add_trade config state trade = Except.ok state2 ∧
      lookupA state2.daily_volume trade.asset =
        some ((lookupA state.daily_volume trade.asset).getD 0 + trade.quantity) ∧
      (trade.quantity < 0 →
        (lookupA state.daily_volume trade.asset).getD 0 + trade.quantity <
          (lookupA state.daily_volume trade.asset).getD 0) := by
  have hca : check_allowed config trade = none := by
    unfold check_allowed
    simp [hallow]
  have hcs : check_size config trade = none := by
    unfold check_size
    simp [hs1]
  have hds : decode_side ((lookupA state.current_positions trade.asset).getD 0)
      trade.quantity trade.side =
      Except.ok ((lookupA state.current_positions trade.asset).getD 0 +
        (if trade.side = 0 then trade.quantity else -trade.quantity)) := by
    unfold decode_side
    rcases hside with h0 | h1
    · simp [h0]
    · rw [h1]
      norm_num [sub_eq_add_neg]
  have hcp : check_position config trade.asset
      ((lookupA state.current_positions trade.asset).getD 0 +
        (if trade.side = 0 then trade.quantity else -trade.quantity)) = none := by
    unfold check_position
    simp [hs2]
  have hcv : check_volume config trade.asset
      ((lookupA state.daily_volume trade.asset).getD 0 + trade.quantity) = none := by
    unfold check_volume
    simp [hs3]
  have hev : evaluate_trade config state trade = Except.ok () := by
    unfold evaluate_trade
    simp only [hca, hcs, hds, hcp, hcv]
  have hadd : add_trade config state trade =
      Except.ok
        { current_positions :=
            insertA state.current_positions trade.asset
              ((lookupA state.current_positions trade.asset).getD 0 +
                (if trade.side = 0 then trade.quantity else -trade.quantity)),
          open_orders := state.open_orders,
          daily_volume :=
            insertA state.daily_volume trade.asset
              ((lookupA state.daily_volume trade.asset).getD 0 + trade.quantity) } := by
    unfold add_trade
    simp only [hev]
    exact add_trade_mutate_valid state trade hside
  exact ⟨hev, _, hadd, lookupA_insertA_self _ _ _, fun hq => by linarith⟩

/-- Witness for C10: with no limits configured for BTC, a Buy of
quantity -1 at price -5 is admitted and drives the daily volume from 0
down to -1. -/
theorem C10_no_positivity_validation_witness :
    ((0 : Int) = 0 ∨ (0 : Int) = 1) ∧
    (evaluate_trade ⟨[], [], [], [], ["BTC"], 1/2, true, "a"⟩ ⟨[], [], []⟩ ⟨"BTC", -1, -5, 0⟩ =
        Except.ok () ∧
      ∃ state2 : RisklyState,
        add_trade ⟨[], [], [], [], ["BTC"], 1/2, true, "a"⟩ ⟨[], [], []⟩ ⟨"BTC", -1, -5, 0⟩ =
          Except.ok state2 ∧
        lookupA state2.daily_volume "BTC" =
          some ((lookupA ([] : List (String × ℚ)) "BTC").getD 0 + (-1)) ∧
        ((-1 : ℚ) < 0 →
          (lookupA ([] : List (String × ℚ)) "BTC").getD 0 + (-1) <
            (lookupA ([] : List (String × ℚ)) "BTC").getD 0)) :=
  ⟨Or.inl rfl,
    C10_no_positivity_validation _ _ _ (Or.inl rfl) (by decide) (by simp [lookupA])
      (by simp [lookupA]) (by simp [lookupA])⟩

/-- Claim C6: every trade admitted by `add_trade` moves the asset's
position by +quantity (Buy) or -quantity (Sell) with an absent key read
as 0, adds the signed quantity to the asset's daily volume, and leaves
the open orders and every other asset's entries unchanged. -/
theorem C6_apply_updates (config : RisklyConfig) (state state2 : RisklyState) (trade : Trade)
    (h : add_trade config state trade = Except.ok state2) :
    lookupA state2.current_positions trade.asset =
      some ((lookupA state.current_positions trade.asset).getD 0 +
        (if trade.side = 0 then trade.quantity else -trade.quantity)) ∧
    lookupA state2.daily_volume trade.asset =
      some ((lookupA state.daily_volume trade.asset).getD 0 + trade.quantity) ∧
    state2.open_orders = state.open_orders ∧
    ∀ a, a ≠ trade.asset →
      lookupA state2.current_positions a = lookupA state.current_positions a ∧
      lookupA state2.daily_volume a = lookupA state.daily_volume a := by
  obtain ⟨hok, hmut⟩ := add_trade_ok_inv _ _ _ _ h
  have hside := evaluate_trade_ok_side _ _ _ hok
  rw [add_trade_mutate_valid state trade hside] at hmut
  injection hmut with hmut
  subst hmut
  exact ⟨lookupA_insertA_self _ _ _, lookupA_insertA_self _ _ _, rfl,
    fun a ha => ⟨lookupA_insertA_ne _ _ _ _ ha, lookupA_insertA_ne _ _ _ _ ha⟩⟩

/-- Witness for C6: a Buy of 2 BTC against a state holding only an ETH
position lands the BTC position at 0 + 2, the BTC daily volume at
0 + 2, and leaves the open orders and the ETH entry untouched. -/
theorem C6_apply_updates_witness :
    (add_trade ⟨[], [], [], [], ["BTC"], 1/2, true, "a"⟩ ⟨[("ETH", 7)], [], [("ETH", 5)]⟩
        ⟨"BTC", 2, 3, 0⟩ =
      Except.ok ⟨[("ETH", 7), ("BTC", 2)], [], [("ETH", 5), ("BTC", 2)]⟩) ∧
    lookupA [("ETH", 7), ("BTC", 2)] "BTC" =
      some ((lookupA [("ETH", 7)] "BTC").getD 0 +
        (if (0 : Int) = 0 then (2 : ℚ) else -(2 : ℚ))) ∧
    lookupA [("ETH", 5), ("BTC", 2)] "BTC" =
      some ((lookupA [("ETH", 5)] "BTC").getD 0 + 2) ∧
    ([] : List OpenOrder) = [] ∧
    lookupA [("ETH", 7), ("BTC", 2)] "ETH" = lookupA [("ETH", 7)] "ETH" := by
  have hadd : add_trade ⟨[], [], [], [], ["BTC"], 1/2, true, "a"⟩
      ⟨[("ETH", 7)], [], [("ETH", 5)]⟩ ⟨"BTC", 2, 3, 0⟩ =
      Except.ok ⟨[("ETH", 7), ("BTC", 2)], [], [("ETH", 5), ("BTC", 2)]⟩ := by
    norm_num +decide [add_trade, add_trade_mutate, evaluate_trade, check_allowed, check_size,
      decode_side, check_position, check_volume, lookupA, insertA]
  have h := C6_apply_updates _ _ _ _ hadd
  exact ⟨hadd, h.1, h.2.1, h.2.2.1, (h.2.2.2 "ETH" (by decide)).1⟩

/-- Counterexample for C3: `allocation_claim` — the claim as stated,
with the portfolio value supplied as the spec's `portfolio_value_usd`
since the compiled state has no such field — is false: with
max_allocation_per_asset_pct BTC = 0.5, portfolio value 100 and a Buy
of 1 BTC at price 100 (allocation 1.0 > 0.5) that passes every compiled
check, `evaluate_trade` returns ok instead of ExceedsMaxAllocation. -/
theorem C3_counterexample : ¬ allocation_claim := by
  intro hclaim
  have hok : evaluate_trade ⟨[], [], [], [("BTC", 1/2)], ["BTC"], 1/2, true, "a"⟩ ⟨[], [], []⟩
      ⟨"BTC", 1, 100, 0⟩ = Except.ok () := by
    norm_num +decide [evaluate_trade, check_allowed, check_size, decode_side, check_position,
      check_volume, lookupA]
  have halloc : new_position ⟨[], [], []⟩ ⟨"BTC", 1, 100, 0⟩ *
      (⟨"BTC", 1, 100, 0⟩ : Trade).price / 100 > 1/2 := by
    norm_num [new_position, lookupA]
  have h := hclaim ⟨[], [], [], [("BTC", 1/2)], ["BTC"], 1/2, true, "a"⟩ ⟨[], [], []⟩
      ⟨"BTC", 1, 100, 0⟩ 100 (1/2) hok (by norm_num) (by simp [lookupA]) halloc
  rw [hok] at h
  simp at h

/-- Claim C3 (amended): the compiled code performs no portfolio
allocation check — the state has no portfolio value and
`ExceedsMaxAllocation`, though declared, is never constructed — so
`evaluate_trade` never returns it, for any configuration, state and
trade. -/
theorem C3_no_allocation_check (config : RisklyConfig) (state : RisklyState) (trade : Trade)
    (pct mx : ℚ) (a : String) :
    evaluate_trade config state trade ≠
      Except.error (RisklyError.ExceedsMaxAllocation pct mx a) := by
  intro hc
  rcases evaluate_trade_error_shape _ _ _ _ hc with
    h | ⟨q, m2, h⟩ | h | ⟨x, m2, h⟩ | ⟨x, m2, h⟩ <;> simp at h

/-- Claim C2 fails on the code: `add_trade` evaluates under one lock
acquisition, releases it, and re-acquires the lock for the mutation, so
another call's write can land between a call's checks and its write.
With max_position BTC = 2.0, a single apply of Buy BTC 1.5 from the
empty state passes (first conjunct), yet under the schedule
eval1-eval2-mutate1-mutate2 two such applies BOTH finish ok and leave
position 3.0, which the code's own position check rejects — the claim
says exactly one of them must succeed. -/
theorem C2_interleaving_admits_both :
    add_trade ⟨[("BTC", 2)], [], [], [], ["BTC"], 1/2, true, "a"⟩ ⟨[], [], []⟩
        ⟨"BTC", 3/2, 10, 0⟩ = Except.ok ⟨[("BTC", 3/2)], [], [("BTC", 3/2)]⟩ ∧
    (runConc2 ⟨[("BTC", 2)], [], [], [], ["BTC"], 1/2, true, "a"⟩ ⟨"BTC", 3/2, 10, 0⟩
        ⟨"BTC", 3/2, 10, 0⟩ [false, true, false, true]
        ⟨⟨[], [], []⟩, Phase.toEvaluate, Phase.toEvaluate⟩).ph1 =
      Phase.finished (Except.ok ()) ∧
    (runConc2 ⟨[("BTC", 2)], [], [], [], ["BTC"], 1/2, true, "a"⟩ ⟨"BTC", 3/2, 10, 0⟩
        ⟨"BTC", 3/2, 10, 0⟩ [false, true, false, true]
        ⟨⟨[], [], []⟩, Phase.toEvaluate, Phase.toEvaluate⟩).ph2 =
      Phase.finished (Except.ok ()) ∧
    lookupA (runConc2 ⟨[("BTC", 2)], [], [], [], ["BTC"], 1/2, true, "a"⟩ ⟨"BTC", 3/2, 10, 0⟩
        ⟨"BTC", 3/2, 10, 0⟩ [false, true, false, true]
        ⟨⟨[], [], []⟩, Phase.toEvaluate, Phase.toEvaluate⟩).st.current_positions "BTC" =
      some 3 ∧
    check_position ⟨[("BTC", 2)], [], [], [], ["BTC"], 1/2, true, "a"⟩ "BTC" 3 =
      some (RisklyError.ExceedsMaxPosition 3 2 "BTC") := by
  refine ⟨?_, ?_, ?_, ?_, ?_⟩ <;>
    norm_num +decide [runConc2, conc2Step, threadStep, add_trade, add_trade_mutate,
      evaluate_trade, check_allowed, check_size, decode_side, check_position, check_volume,
      lookupA, insertA, abs, max_def]
